import Mathlib

/-!
Verification of the InstaScrape metadata service (`src/App/app.py`) against its
natural-language specification.

The Python source is shallowly embedded: pure string-matching helpers become
Lean functions over `String` (with explicit, kernel-reducible models of
Python's `str.lower`, `str.strip` and the `in` substring operator over the
character lists), the credential-pool loop becomes a structurally recursive
function that also records which credentials were attempted, and the HTTP
endpoint becomes a pure function from the parsed request and an extraction
oracle to a response record.  Fallible Python code (exceptions) is embedded
with `Except`.  The external extraction library (`yt_dlp`) is out of scope and
is represented by an oracle argument `String → String → Except String RawInfo`
(url and cookie file to raw info record or raw error text).
-/

namespace InstaScrape

/-- Model of Python's ASCII-relevant `str.lower` (all patterns matched by the
program are ASCII), as a character-list map so that it reduces in the kernel. -/
def strLower (s : String) : String := String.mk (s.data.map Char.toLower)

/-- Test whether the character list `n` occurs at the very start of `h`. -/
def leadingMatch : List Char → List Char → Bool
  | [], _ => true
  | _ :: _, [] => false
  | a :: as, b :: bs => a == b && leadingMatch as bs

/-- Test whether the character list `n` occurs contiguously somewhere in the
second list. -/
def listContains (needle : List Char) : List Char → Bool
  | [] => leadingMatch needle []
  | c :: cs => leadingMatch needle (c :: cs) || listContains needle cs

/-- Model of Python's `needle in haystack` substring test. -/
def containsSubstr (haystack needle : String) : Bool :=
  listContains needle.data haystack.data

/-- Model of Python's `str.strip()`: remove leading and trailing whitespace. -/
def pyStrip (s : String) : String :=
  String.mk (((s.data.dropWhile Char.isWhitespace).reverse.dropWhile
    Char.isWhitespace).reverse)

/-- Truthiness of a Python `str`-or-`None` value (`None` and `""` are falsy). -/
def strTruthy : Option String → Bool
  | none => false
  | some s => s ≠ ""

/-- Python's `a or b` on `str`-or-`None` values: `a` when truthy, else `b`. -/
def pyOr (a b : Option String) : Option String :=
  if strTruthy a then a else b

/-- Embedding of `should_retry_with_alt_cookie` (app.py lines 59–76): lower-case
the raw error text (`None` treated as `""`) and test it against the five fixed
fallback patterns. -/
def should_retry_with_alt_cookie (error_text : Option String) : Bool :=
  let t := strLower (error_text.getD "")
  let patterns := ["http error 400",
                   "instagram api is not granting access",
                   "instagram sent an empty media response",
                   "login session is not accepted",
                   "post is private/restricted"]
  patterns.any (fun p => containsSubstr t p)

/-- Embedding of `simplify_error_message` (app.py lines 82–100): an ordered
if-chain of case-insensitive substring rules with a fixed default message. -/
def simplify_error_message (raw : Option String) : String :=
  let raw_lower := strLower (raw.getD "")
  if containsSubstr raw_lower "no video formats found" then
    "No downloadable video found (might be an image, carousel, or removed)."
  else if containsSubstr raw_lower "instagram sent an empty media response" ||
          containsSubstr raw_lower "instagram api is not granting access" ||
          containsSubstr raw_lower "http error 400" ||
          containsSubstr raw_lower "login session is not accepted" then
    "Post is private/restricted or the login session is not accepted."
  else if containsSubstr raw_lower "unable to extract data" then
    "Unable to extract data for this URL."
  else if containsSubstr raw_lower "functionality for this site has been marked as broken" then
    "yt-dlp Instagram extractor is currently broken for this URL."
  else
    "Unknown error – see server logs."

/-- The rule table of `simplify_error_message` in source order: each entry is
the list of trigger substrings together with the friendly message returned. -/
def ruleTable : List (List String × String) :=
  [(["no video formats found"],
    "No downloadable video found (might be an image, carousel, or removed)."),
   (["instagram sent an empty media response",
     "instagram api is not granting access",
     "http error 400",
     "login session is not accepted"],
    "Post is private/restricted or the login session is not accepted."),
   (["unable to extract data"],
    "Unable to extract data for this URL."),
   (["functionality for this site has been marked as broken"],
    "yt-dlp Instagram extractor is currently broken for this URL.")]

/-- First-match-wins interpretation of an ordered rule table over an already
lower-cased input, defaulting to the fixed unknown-error message. -/
def firstMatch : List (List String × String) → String → String
  | [], _ => "Unknown error – see server logs."
  | (pats, msg) :: rs, t =>
    if pats.any (fun p => containsSubstr t p) then msg else firstMatch rs t

/-- Raw record returned by the external extraction library for one post, with
exactly the fields `get_instagram_metadata` reads (`info.get(...)`); each is
optional because the upstream source may omit any of them. -/
structure RawInfo where
  timestamp : Option Int
  view_count : Option Int
  comment_count : Option Int
  like_count : Option Int
  uploader : Option String
  uploader_id : Option String
deriving DecidableEq

/-- The normalized metadata record built by `get_instagram_metadata`. -/
structure Meta where
  plays : Option Int
  comments : Option Int
  likes : Option Int
  pub_date : Option String
  pub_time : Option String
  insta_id : Option String
deriving DecidableEq

/-- Civil (proleptic Gregorian) date from a count of days since 1970-01-01,
the standard era-based algorithm; returns (year, month, day). -/
def civilFromDays (days : Int) : Int × Nat × Nat :=
  let z : Int := days + 719468
  let era : Int := Int.fdiv z 146097
  let doe : Nat := (z - era * 146097).toNat
  let yoe : Nat := (doe - doe / 1460 + doe / 36524 - doe / 146097) / 365
  let y : Int := (yoe : Int) + era * 400
  let doy : Nat := doe - (365 * yoe + yoe / 4 - yoe / 100)
  let mp : Nat := (5 * doy + 2) / 153
  let d : Nat := doy - (153 * mp + 2) / 5 + 1
  let m : Nat := if mp < 10 then mp + 3 else mp - 9
  (if m ≤ 2 then y + 1 else y, m, d)

/-- Fixed-width zero-padded decimal rendering (width `w`, accumulator form). -/
def digitsFixed : Nat → Nat → List Char → List Char
  | 0, _, acc => acc
  | w + 1, n, acc => digitsFixed w (n / 10) (Char.ofNat (48 + n % 10) :: acc)

/-- Modelled from the spec: `datetime.fromtimestamp(ts).strftime("%Y-%m-%d")`
— the external standard library converts epoch seconds to a calendar date in
the server's local time zone (spec §4.2); the local zone is abstracted as a
fixed UTC offset `tz` in seconds. -/
def strftimeYmd (tz ts : Int) : String :=
  let cd := civilFromDays (Int.fdiv (ts + tz) 86400)
  String.mk (digitsFixed 4 cd.1.toNat [] ++
    '-' :: (digitsFixed 2 cd.2.1 [] ++ '-' :: digitsFixed 2 cd.2.2 []))

/-- Modelled from the spec: `datetime.fromtimestamp(ts).strftime("%H:%M:%S")`
— time of day in the server's local time zone, abstracted as offset `tz`. -/
def strftimeHms (tz ts : Int) : String :=
  let sod := (Int.fmod (ts + tz) 86400).toNat
  String.mk (digitsFixed 2 (sod / 3600) [] ++
    ':' :: (digitsFixed 2 (sod % 3600 / 60) [] ++ ':' :: digitsFixed 2 (sod % 60) []))

/-- The pure tail of `get_instagram_metadata` (app.py lines 120–131): build the
normalized record from the raw info.  `if ts` in Python is a truthiness test:
`None` and `0` both fail it. -/
def normalize_info (tz : Int) (info : RawInfo) : Meta :=
  let pub_date : Option String :=
    match info.timestamp with
    | some ts => if ts = 0 then none else some (strftimeYmd tz ts)
    | none => none
  let pub_time : Option String :=
    match info.timestamp with
    | some ts => if ts = 0 then none else some (strftimeHms tz ts)
    | none => none
  { plays := info.view_count
    comments := info.comment_count
    likes := info.like_count
    pub_date := pub_date
    pub_time := pub_time
    insta_id := pyOr info.uploader info.uploader_id }

/-- Embedding of `get_instagram_metadata` (app.py lines 106–131): invoke the
external extraction oracle with the url and cookie file, propagate its raw
error unchanged, and normalize its record on success. -/
def get_instagram_metadata (tz : Int)
    (extract : String → String → Except String RawInfo)
    (url cookie_file : String) : Except String Meta :=
  match extract url cookie_file with
  | .ok info => .ok (normalize_info tz info)
  | .error e => .error e

/-- Terminal state of one credential-pool traversal: a normalized record, or
the last recorded raw error (`None` when no attempt was made). -/
inductive FetchOut
  | success (m : Meta)
  | failure (lastError : Option String)
deriving DecidableEq

/-- Embedding of the endpoint's `for cookie_idx, cookie_file in
enumerate(cookie_pool)` loop (app.py lines 204–220): try each credential in
order, stop on success, and continue past a failure only from index 0 when the
pool has more than one entry and the fallback policy accepts the raw error.
The first component records which credential files were attempted, in order. -/
def poolLoop (fetch : String → Except String Meta) (poolLen : Nat) :
    Nat → List String → Option String → List String × FetchOut
  | _, [], lastErr => ([], .failure lastErr)
  | idx, c :: rest, _ =>
    match fetch c with
    | .ok m => ([c], .success m)
    | .error e =>
      if idx = 0 ∧ 1 < poolLen ∧ should_retry_with_alt_cookie (some e) = true then
        let p := poolLoop fetch poolLen (idx + 1) rest (some e)
        (c :: p.1, p.2)
      else
        ([c], .failure (some e))

/-- One full traversal of the credential pool, starting at index 0 with no
error recorded. -/
def tryPool (fetch : String → Except String Meta) (pool : List String) :
    List String × FetchOut :=
  poolLoop fetch pool.length 0 pool none

/-- A JSON scalar as it appears in the endpoint's response body: the handler
emits either an integer or a string for each field. -/
inductive JVal
  | int (n : Int)
  | str (s : String)
deriving DecidableEq

/-- The fixed response shape of the `/instagram-metadata` endpoint together
with the HTTP status code it is sent with. -/
structure ApiResponse where
  plays : JVal
  comments : JVal
  likes : JVal
  pub_date : JVal
  pub_time : JVal
  insta_id : JVal
  error : JVal
  status_code : Nat
deriving DecidableEq

/-- The all-empty-fields response used for every non-success reply. -/
def emptyBody (err : String) (code : Nat) : ApiResponse :=
  { plays := .str "", comments := .str "", likes := .str "",
    pub_date := .str "", pub_time := .str "", insta_id := .str "",
    error := .str err, status_code := code }

/-- Python's `int(x) if x is not None else ""` on an optional count. -/
def intOrEmpty : Option Int → JVal
  | some n => .int n
  | none => .str ""

/-- Embedding of the `instagram_metadata` endpoint (app.py lines 141–248).
The parsed request is `body : Option (Option String)`: outer `none` models a
body that is not parseable JSON, the inner option is the `link` field (absent
or present).  `extract` is the external extraction oracle and `pool` the
credential pool built at startup. -/
def instagram_metadata (tz : Int)
    (extract : String → String → Except String RawInfo)
    (pool : List String) (body : Option (Option String)) : ApiResponse :=
  match body with
  | none => emptyBody "Invalid JSON body." 400
  | some linkField =>
    let link := pyStrip (linkField.getD "")
    if link = "" then
      emptyBody "No link provided." 400
    else if pool = [] then
      emptyBody "No valid Instagram cookie files found on server." 500
    else
      match (tryPool (fun c => get_instagram_metadata tz extract link c) pool).2 with
      | .failure lastErr =>
        emptyBody (simplify_error_message lastErr) 200
      | .success meta =>
        { plays := intOrEmpty meta.plays
          comments := intOrEmpty meta.comments
          likes := intOrEmpty meta.likes
          pub_date := .str ((pyOr meta.pub_date (some "")).getD "")
          pub_time := .str ((pyOr meta.pub_time (some "")).getD "")
          insta_id := .str ((pyOr meta.insta_id (some "")).getD "")
          error := .str ""
          status_code := 200 }

/-- The two fixed credential-file paths of the configuration section. -/
def COOKIE_FILE_MAIN : String := "/tmp/www.instagram.com_cookies_main.txt"

/-- The alternate credential-file path. -/
def COOKIE_FILE_ALT : String := "/tmp/www.instagram.com_cookies_alt.txt"

/-- Embedding of `write_cookie_from_secret` (app.py lines 20–33).  `secrets`
models `st.secrets` (`get` with default `""`), `fs` the set of existing file
paths.  When the secret is blank the stale file is removed and `False`
returned.  When it is non-blank the source executes `Path(path).write_text(...)`
— but `Path` is never imported in app.py (there is no `from pathlib import
Path`), so that line raises `NameError` instead of writing and returning
`True`; the embedding surfaces this as an `Except.error`.  On success the
result is the updated file set and the returned boolean. -/
def write_cookie_from_secret (secrets : String → Option String)
    (fs : List String) (secret_key path : String) :
    Except String (List String × Bool) :=
  let value := (secrets secret_key).getD ""
  if pyStrip value = "" then
    .ok (if fs.contains path then fs.filter (· ≠ path) else fs, false)
  else
    .error "NameError: name 'Path' is not defined"

/-- Embedding of the startup sequence (app.py lines 36–52): materialize both
cookie slots, abort with `RuntimeError` when the main slot is unusable, and
otherwise build the credential pool (main first, alt appended when usable). -/
def startup (secrets : String → Option String) (fs : List String) :
    Except String (List String) :=
  match write_cookie_from_secret secrets fs "INSTAGRAM_COOKIE_MAIN" COOKIE_FILE_MAIN with
  | .error e => .error e
  | .ok (fs1, main_ok) =>
    match write_cookie_from_secret secrets fs1 "INSTAGRAM_COOKIE_ALT" COOKIE_FILE_ALT with
    | .error e => .error e
    | .ok (_, alt_ok) =>
      if main_ok = false then
        .error "RuntimeError: INSTAGRAM_COOKIE_MAIN is not set or empty in Streamlit secrets. Set it in the app's Secrets section."
      else
        .ok (if alt_ok then [COOKIE_FILE_MAIN, COOKIE_FILE_ALT] else [COOKIE_FILE_MAIN])

/-- The loop body of the endpoint's pool traversal: fetch the link with one
cookie file via `get_instagram_metadata`. -/
def handlerFetch (tz : Int) (extract : String → String → Except String RawInfo)
    (link : String) : String → Except String Meta :=
  fun cookie_file => get_instagram_metadata tz extract link cookie_file

/-- Test whether `s` is a `YYYY-MM-DD` string: ten characters, digits
everywhere except dashes at positions 4 and 7. -/
def isYmdShape (s : String) : Bool :=
  match s.data with
  | [y1, y2, y3, y4, s1, m1, m2, s2, d1, d2] =>
    y1.isDigit && y2.isDigit && y3.isDigit && y4.isDigit &&
    s1 == '-' && m1.isDigit && m2.isDigit && s2 == '-' && d1.isDigit && d2.isDigit
  | _ => false

/-- Test whether `s` is an `HH:MM:SS` string: eight characters, digits
everywhere except colons at positions 2 and 5. -/
def isHmsShape (s : String) : Bool :=
  match s.data with
  | [h1, h2, s1, m1, m2, s2, c1, c2] =>
    h1.isDigit && h2.isDigit && s1 == ':' && m1.isDigit && m2.isDigit &&
    s2 == ':' && c1.isDigit && c2.isDigit
  | _ => false

/-! ### Helper lemmas -/

theorem digitChar_isDigit (n : Nat) : (Char.ofNat (48 + n % 10)).isDigit = true := by
  have h : n % 10 < 10 := Nat.mod_lt _ (by norm_num)
  set k := n % 10 with hk
  interval_cases k <;> decide

theorem digitsFixed_two (n : Nat) (acc : List Char) :
    digitsFixed 2 n acc =
      Char.ofNat (48 + n / 10 % 10) :: Char.ofNat (48 + n % 10) :: acc := rfl

theorem digitsFixed_four (n : Nat) (acc : List Char) :
    digitsFixed 4 n acc =
      Char.ofNat (48 + n / 10 / 10 / 10 % 10) :: Char.ofNat (48 + n / 10 / 10 % 10) ::
        Char.ofNat (48 + n / 10 % 10) :: Char.ofNat (48 + n % 10) :: acc := rfl

theorem strftimeYmd_shape (tz ts : Int) : isYmdShape (strftimeYmd tz ts) = true := by
  simp only [strftimeYmd]
  rw [digitsFixed_four, digitsFixed_two, digitsFixed_two]
  simp [isYmdShape, digitChar_isDigit]

theorem strftimeHms_shape (tz ts : Int) : isHmsShape (strftimeHms tz ts) = true := by
  simp only [strftimeHms]
  rw [digitsFixed_two, digitsFixed_two, digitsFixed_two]
  simp [isHmsShape, digitChar_isDigit]

theorem tryPool_ok (fetch : String → Except String Meta) (c0 : String)
    (rest : List String) (m : Meta) (hf : fetch c0 = .ok m) :
    tryPool fetch (c0 :: rest) = ([c0], .success m) := by
  simp [tryPool, poolLoop, hf]

theorem tryPool_err_stop (fetch : String → Except String Meta) (c0 : String)
    (rest : List String) (e : String) (hf : fetch c0 = .error e)
    (h : rest = [] ∨ should_retry_with_alt_cookie (some e) = false) :
    tryPool fetch (c0 :: rest) = ([c0], .failure (some e)) := by
  rcases h with h | h
  · subst h; simp [tryPool, poolLoop, hf]
  · simp [tryPool, poolLoop, hf, h]

theorem tryPool_err_cont (fetch : String → Except String Meta) (c0 c1 : String)
    (rest' : List String) (e : String) (hf : fetch c0 = .error e)
    (hp : should_retry_with_alt_cookie (some e) = true) :
    tryPool fetch (c0 :: c1 :: rest') =
      match fetch c1 with
      | .ok m => ([c0, c1], .success m)
      | .error e2 => ([c0, c1], .failure (some e2)) := by
  simp only [tryPool, poolLoop, hf]
  rw [if_pos ⟨trivial, by simp only [List.length_cons]; omega, hp⟩]
  cases hf1 : fetch c1 <;> simp [poolLoop, hf1]

theorem simplify_mem (raw : Option String) :
    simplify_error_message raw ∈
      ["No downloadable video found (might be an image, carousel, or removed).",
       "Post is private/restricted or the login session is not accepted.",
       "Unable to extract data for this URL.",
       "yt-dlp Instagram extractor is currently broken for this URL.",
       "Unknown error – see server logs."] := by
  simp only [simplify_error_message]
  repeat' split
  all_goals simp

theorem firstMatch_default (table : List (List String × String)) (t : String)
    (h : ∀ r ∈ table, ∀ p ∈ r.1, containsSubstr t p = false) :
    firstMatch table t = "Unknown error – see server logs." := by
  induction table with
  | nil => rfl
  | cons r rs ih =>
    obtain ⟨pats, msg⟩ := r
    have hc : pats.any (fun p => containsSubstr t p) = false := by
      rw [List.any_eq_false]
      intro p hp
      simp [h ⟨pats, msg⟩ (List.mem_cons_self _ _) p hp]
    simp only [firstMatch, hc, Bool.false_eq_true, if_false]
    exact ih (fun r hr => h r (List.mem_cons_of_mem _ hr))

theorem pyOr_empty_getD (a : Option String) :
    (pyOr a (some "")).getD "" = a.getD "" := by
  cases a with
  | none => rfl
  | some s =>
    by_cases hs : s = "" <;> simp [pyOr, strTruthy, hs]

theorem instagram_metadata_run (tz : Int)
    (extract : String → String → Except String RawInfo) (pool : List String)
    (linkField : Option String) (hlink : pyStrip (linkField.getD "") ≠ "")
    (hpool : pool ≠ []) :
    instagram_metadata tz extract pool (some linkField) =
      match (tryPool (fun c => get_instagram_metadata tz extract
          (pyStrip (linkField.getD "")) c) pool).2 with
      | .failure lastErr => emptyBody (simplify_error_message lastErr) 200
      | .success meta =>
        { plays := intOrEmpty meta.plays
          comments := intOrEmpty meta.comments
          likes := intOrEmpty meta.likes
          pub_date := .str ((pyOr meta.pub_date (some "")).getD "")
          pub_time := .str ((pyOr meta.pub_time (some "")).getD "")
          insta_id := .str ((pyOr meta.insta_id (some "")).getD "")
          error := .str ""
          status_code := 200 } := by
  simp only [instagram_metadata]
  rw [if_neg hlink, if_neg hpool]

theorem write_cookie_ok_false (secrets : String → Option String)
    (fs : List String) (secret_key path : String) (fs' : List String) (b : Bool)
    (h : write_cookie_from_secret secrets fs secret_key path = .ok (fs', b)) :
    b = false := by
  unfold write_cookie_from_secret at h
  by_cases hc : pyStrip ((secrets secret_key).getD "") = ""
  · rw [if_pos hc] at h
    cases h
    rfl
  · rw [if_neg hc] at h
    cases h

theorem except_cases {α β : Type} (x : Except α β) :
    (∃ b, x = .ok b) ∨ (∃ a, x = .error a) := by
  cases x with
  | ok b => exact .inl ⟨b, rfl⟩
  | error a => exact .inr ⟨a, rfl⟩

theorem simplify_ne_empty (raw : Option String) : simplify_error_message raw ≠ "" := by
  simp only [simplify_error_message]
  repeat' split
  all_goals decide

theorem endpoint_failure_out (tz : Int)
    (extract : String → String → Except String RawInfo) (pool : List String)
    (linkField : Option String) (attempts : List String) (e : String)
    (hlink : pyStrip (linkField.getD "") ≠ "") (hpool : pool ≠ [])
    (hr : tryPool (handlerFetch tz extract (pyStrip (linkField.getD ""))) pool =
      (attempts, .failure (some e))) :
    instagram_metadata tz extract pool (some linkField) =
      emptyBody (simplify_error_message (some e)) 200 := by
  have hrun := instagram_metadata_run tz extract pool linkField hlink hpool
  have hfe : (fun c => get_instagram_metadata tz extract (pyStrip (linkField.getD "")) c) =
      handlerFetch tz extract (pyStrip (linkField.getD "")) := rfl
  rw [hfe, hr] at hrun
  exact hrun

theorem endpoint_success_out (tz : Int)
    (extract : String → String → Except String RawInfo) (pool : List String)
    (linkField : Option String) (attempts : List String) (meta : Meta)
    (hlink : pyStrip (linkField.getD "") ≠ "") (hpool : pool ≠ [])
    (hr : tryPool (handlerFetch tz extract (pyStrip (linkField.getD ""))) pool =
      (attempts, .success meta)) :
    instagram_metadata tz extract pool (some linkField) =
      { plays := intOrEmpty meta.plays
        comments := intOrEmpty meta.comments
        likes := intOrEmpty meta.likes
        pub_date := .str (meta.pub_date.getD "")
        pub_time := .str (meta.pub_time.getD "")
        insta_id := .str (meta.insta_id.getD "")
        error := .str ""
        status_code := 200 } := by
  have hrun := instagram_metadata_run tz extract pool linkField hlink hpool
  have hfe : (fun c => get_instagram_metadata tz extract (pyStrip (linkField.getD "")) c) =
      handlerFetch tz extract (pyStrip (linkField.getD "")) := rfl
  rw [hfe, hr] at hrun
  rw [hrun]
  simp only [pyOr_empty_getD]

/-! ### Claim theorems -/

/-- C1: the request handler's pool traversal attempts fetches in pool order and
visits at most 2 credentials; a successful first fetch returns immediately with
no further credential tried; the second credential is attempted iff the first
attempt failed, the pool has more than one entry, and the fallback policy
accepts the raw error; and when no attempt succeeds the handler's response is
built by translating the last recorded raw error, which is the error of the
last attempted credential. -/
theorem C1_orchestrator (tz : Int)
    (extract : String → String → Except String RawInfo) (link : String)
    (c0 : String) (rest : List String) :
    (tryPool (handlerFetch tz extract link) (c0 :: rest)).1.length ≤ 2 ∧
    (tryPool (handlerFetch tz extract link) (c0 :: rest)).1 =
      (c0 :: rest).take (tryPool (handlerFetch tz extract link) (c0 :: rest)).1.length ∧
    (∀ m, handlerFetch tz extract link c0 = .ok m →
      tryPool (handlerFetch tz extract link) (c0 :: rest) = ([c0], .success m)) ∧
    (1 < (tryPool (handlerFetch tz extract link) (c0 :: rest)).1.length ↔
      ∃ e, handlerFetch tz extract link c0 = .error e ∧ rest ≠ [] ∧
        should_retry_with_alt_cookie (some e) = true) ∧
    ((∀ m, (tryPool (handlerFetch tz extract link) (c0 :: rest)).2 ≠ .success m) →
      ∃ e c, (tryPool (handlerFetch tz extract link) (c0 :: rest)).2 = .failure (some e) ∧
        (tryPool (handlerFetch tz extract link) (c0 :: rest)).1.getLast? = some c ∧
        handlerFetch tz extract link c = .error e) ∧
    ((∀ m, (tryPool (handlerFetch tz extract link) (c0 :: rest)).2 ≠ .success m) →
      pyStrip link = link → link ≠ "" →
      ∃ e, (tryPool (handlerFetch tz extract link) (c0 :: rest)).2 = .failure (some e) ∧
        instagram_metadata tz extract (c0 :: rest) (some (some link)) =
          emptyBody (simplify_error_message (some e)) 200) := by
  rcases except_cases (handlerFetch tz extract link c0) with ⟨m, hf⟩ | ⟨e, hf⟩
  case inl =>
    have hr := tryPool_ok (handlerFetch tz extract link) c0 rest m hf
    rw [hr]
    refine ⟨by simp, by simp, ?_, ?_, ?_, ?_⟩
    · intro m' h
      rw [hf] at h
      cases h
      rfl
    · constructor
      · intro h; simp at h
      · rintro ⟨e, he, -, -⟩
        rw [hf] at he
        cases he
    · intro h
      exact absurd rfl (h m)
    · intro h
      exact absurd rfl (h m)
  case inr =>
    have hstop : ∀ hcond : rest = [] ∨ should_retry_with_alt_cookie (some e) = false,
        (tryPool (handlerFetch tz extract link) (c0 :: rest)).1.length ≤ 2 ∧
        (tryPool (handlerFetch tz extract link) (c0 :: rest)).1 =
          (c0 :: rest).take (tryPool (handlerFetch tz extract link) (c0 :: rest)).1.length ∧
        (∀ m, handlerFetch tz extract link c0 = .ok m →
          tryPool (handlerFetch tz extract link) (c0 :: rest) = ([c0], .success m)) ∧
        (1 < (tryPool (handlerFetch tz extract link) (c0 :: rest)).1.length ↔
          ∃ e', handlerFetch tz extract link c0 = .error e' ∧ rest ≠ [] ∧
            should_retry_with_alt_cookie (some e') = true) ∧
        ((∀ m, (tryPool (handlerFetch tz extract link) (c0 :: rest)).2 ≠ .success m) →
          ∃ e' c, (tryPool (handlerFetch tz extract link) (c0 :: rest)).2 = .failure (some e') ∧
            (tryPool (handlerFetch tz extract link) (c0 :: rest)).1.getLast? = some c ∧
            handlerFetch tz extract link c = .error e') ∧
        ((∀ m, (tryPool (handlerFetch tz extract link) (c0 :: rest)).2 ≠ .success m) →
          pyStrip link = link → link ≠ "" →
          ∃ e', (tryPool (handlerFetch tz extract link) (c0 :: rest)).2 = .failure (some e') ∧
            instagram_metadata tz extract (c0 :: rest) (some (some link)) =
              emptyBody (simplify_error_message (some e')) 200) := by
      intro hcond
      have hr := tryPool_err_stop (handlerFetch tz extract link) c0 rest e hf hcond
      rw [hr]
      refine ⟨by simp, by simp, ?_, ?_, ?_, ?_⟩
      · intro m h
        rw [hf] at h
        cases h
      · constructor
        · intro h; simp at h
        · rintro ⟨e', he', hrne, hp'⟩
          rw [hf] at he'
          cases he'
          rcases hcond with h | h
          · exact absurd h hrne
          · rw [h] at hp'
            cases hp'
      · intro _
        exact ⟨e, c0, rfl, rfl, hf⟩
      · intro _ hps hlk
        refine ⟨e, rfl, ?_⟩
        have hlink : pyStrip ((some link).getD "") ≠ "" := by
          simpa [hps] using hlk
        apply endpoint_failure_out tz extract (c0 :: rest) (some link) [c0] e hlink (by simp)
        simpa [hps] using hr
    by_cases hp : should_retry_with_alt_cookie (some e) = true
    · cases rest with
      | nil => exact hstop (Or.inl rfl)
      | cons c1 rest' =>
        have hr := tryPool_err_cont (handlerFetch tz extract link) c0 c1 rest' e hf hp
        rcases except_cases (handlerFetch tz extract link c1) with ⟨m, hf1⟩ | ⟨e2, hf1⟩
        · rw [hf1] at hr
          refine ⟨by rw [hr]; simp, by rw [hr]; simp, ?_, ?_, ?_, ?_⟩
          · intro m' h
            rw [hf] at h
            cases h
          · rw [hr]
            exact iff_of_true (by simp) ⟨e, hf, by simp, hp⟩
          · intro h
            rw [hr] at h
            exact absurd rfl (h m)
          · intro h
            rw [hr] at h
            exact absurd rfl (h m)
        · rw [hf1] at hr
          refine ⟨by rw [hr]; simp, by rw [hr]; simp, ?_, ?_, ?_, ?_⟩
          · intro m' h
            rw [hf] at h
            cases h
          · rw [hr]
            exact iff_of_true (by simp) ⟨e, hf, by simp, hp⟩
          · intro _
            rw [hr]
            exact ⟨e2, c1, rfl, rfl, hf1⟩
          · intro _ hps hlk
            rw [hr]
            refine ⟨e2, rfl, ?_⟩
            have hlink : pyStrip ((some link).getD "") ≠ "" := by
              simpa [hps] using hlk
            apply endpoint_failure_out tz extract (c0 :: c1 :: rest') (some link) [c0, c1] e2
              hlink (by simp)
            simpa [hps] using hr
    · have hpf : should_retry_with_alt_cookie (some e) = false := by
        cases h' : should_retry_with_alt_cookie (some e) <;> simp_all
      exact hstop (Or.inr hpf)

/-- Witness for C1: with a pool of three credentials and every fetch failing
with a retry-worthy error, exactly the first two credentials are attempted and
the response carries the translated error. -/
theorem C1_orchestrator_witness :
    (tryPool (handlerFetch 0 (fun _ _ => .error "HTTP Error 400: Bad Request") "u")
      ["main", "alt", "third"]).1.length ≤ 2 :=
  (C1_orchestrator 0 (fun _ _ => .error "HTTP Error 400: Bad Request") "u"
    "main" ["alt", "third"]).1

/-- C2: for every input, `should_retry_with_alt_cookie` returns true iff the
lower-cased input contains at least one of the five fixed substrings (so the
match is case-insensitive), and it returns false for null (`none`) or empty
input.  As a Lean function it is pure by construction. -/
theorem C2_fallback_policy (o : Option String) :
    (should_retry_with_alt_cookie o = true ↔
      ∃ p ∈ ["http error 400",
             "instagram api is not granting access",
             "instagram sent an empty media response",
             "login session is not accepted",
             "post is private/restricted"],
        containsSubstr (strLower (o.getD "")) p = true) ∧
    should_retry_with_alt_cookie none = false ∧
    should_retry_with_alt_cookie (some "") = false := by
  refine ⟨?_, by decide, by decide⟩
  simp [should_retry_with_alt_cookie, List.any_eq_true]

/-- Witness for C2 at a concrete input: `"HTTP Error 400"` in mixed case is
matched by the fallback policy. -/
theorem C2_fallback_policy_witness :
    should_retry_with_alt_cookie (some "HTTP Error 400: Bad Request") = true :=
  (C2_fallback_policy (some "HTTP Error 400: Bad Request")).1.mpr
    ⟨"http error 400", by decide, by decide⟩

/-- C3: `simplify_error_message` is total and first-match-wins: on every input
it agrees with the first-matching rule of the ordered rule table, its result is
never the empty string, and when no rule substring occurs in the lower-cased
input it returns exactly the fixed unknown-error message. -/
theorem C3_translator_total_first_match (raw : Option String) :
    simplify_error_message raw = firstMatch ruleTable (strLower (raw.getD "")) ∧
    simplify_error_message raw ≠ "" ∧
    ((∀ r ∈ ruleTable, ∀ p ∈ r.1, containsSubstr (strLower (raw.getD "")) p = false) →
      simplify_error_message raw = "Unknown error – see server logs.") := by
  have htab : simplify_error_message raw = firstMatch ruleTable (strLower (raw.getD "")) := by
    simp only [simplify_error_message, ruleTable, firstMatch, List.any_cons, List.any_nil,
      Bool.or_false, Bool.or_assoc]
  refine ⟨htab, ?_, ?_⟩
  · rw [htab]
    simp only [ruleTable, firstMatch]
    repeat' split
    all_goals decide
  · intro h
    rw [htab]
    exact firstMatch_default ruleTable (strLower (raw.getD "")) h

/-- Witness for C3 at a concrete input matching no rule: the fixed default
message is returned (and is non-empty). -/
theorem C3_translator_total_first_match_witness :
    simplify_error_message (some "some totally different failure") =
      "Unknown error – see server logs." :=
  (C3_translator_total_first_match (some "some totally different failure")).2.2
    (by decide)

/-- C4 counterexample: on an input that triggers only the marked-as-broken
rule, the translator returns the message `"yt-dlp Instagram extractor is
currently broken for this URL."`, which is not the message `"Extractor is
currently broken for this URL."` the claim states. -/
theorem C4_counterexample :
    simplify_error_message
        (some "ERROR: Functionality for this site has been marked as broken") =
      "yt-dlp Instagram extractor is currently broken for this URL." ∧
    "yt-dlp Instagram extractor is currently broken for this URL." ≠
      "Extractor is currently broken for this URL." := by
  exact ⟨by decide, by decide⟩

/-- C4 (amended): for every input whose lower-cased form contains
"functionality for this site has been marked as broken" and none of the
earlier table substrings, the translator returns exactly
"yt-dlp Instagram extractor is currently broken for this URL.". -/
theorem C4_broken_extractor_message (s : String)
    (hb : containsSubstr (strLower s)
      "functionality for this site has been marked as broken" = true)
    (h0 : containsSubstr (strLower s) "no video formats found" = false)
    (h1 : containsSubstr (strLower s) "instagram sent an empty media response" = false)
    (h2 : containsSubstr (strLower s) "instagram api is not granting access" = false)
    (h3 : containsSubstr (strLower s) "http error 400" = false)
    (h4 : containsSubstr (strLower s) "login session is not accepted" = false)
    (h5 : containsSubstr (strLower s) "unable to extract data" = false) :
    simplify_error_message (some s) =
      "yt-dlp Instagram extractor is currently broken for this URL." := by
  simp [simplify_error_message, hb, h0, h1, h2, h3, h4, h5]

/-- Witness for the amended C4 at a concrete mixed-case input. -/
theorem C4_broken_extractor_message_witness :
    simplify_error_message
        (some "Functionality for this site has been marked as BROKEN") =
      "yt-dlp Instagram extractor is currently broken for this URL." :=
  C4_broken_extractor_message
    "Functionality for this site has been marked as BROKEN"
    (by decide) (by decide) (by decide) (by decide) (by decide) (by decide) (by decide)

/-- C5: when the link is non-empty, the pool is non-empty, and every fetch
attempt fails, the endpoint responds with status 200, all metadata fields set
to the empty string, and the error field set to the translated friendly
message; the translated message always comes from the translator's fixed
finite message set and is non-empty, so the raw extraction-library error text
never reaches the caller verbatim. -/
theorem C5_translated_failure_envelope (tz : Int)
    (extract : String → String → Except String RawInfo) (pool : List String)
    (linkField : Option String)
    (hlink : pyStrip (linkField.getD "") ≠ "") (hpool : pool ≠ [])
    (hfail : ∀ c info, extract (pyStrip (linkField.getD "")) c ≠ .ok info) :
    ∃ e : String,
      instagram_metadata tz extract pool (some linkField) =
        { plays := .str "", comments := .str "", likes := .str "",
          pub_date := .str "", pub_time := .str "", insta_id := .str "",
          error := .str (simplify_error_message (some e)), status_code := 200 } ∧
      simplify_error_message (some e) ∈
        ["No downloadable video found (might be an image, carousel, or removed).",
         "Post is private/restricted or the login session is not accepted.",
         "Unable to extract data for this URL.",
         "yt-dlp Instagram extractor is currently broken for this URL.",
         "Unknown error – see server logs."] ∧
      simplify_error_message (some e) ≠ "" := by
  have hferr : ∀ c, ∃ e,
      handlerFetch tz extract (pyStrip (linkField.getD "")) c = .error e := by
    intro c
    rcases except_cases (extract (pyStrip (linkField.getD "")) c) with ⟨info, hx⟩ | ⟨e, hx⟩
    · exact absurd hx (hfail c info)
    · exact ⟨e, by simp [handlerFetch, get_instagram_metadata, hx]⟩
  cases pool with
  | nil => exact absurd rfl hpool
  | cons c0 rest =>
    obtain ⟨e0, hf0⟩ := hferr c0
    by_cases hp : should_retry_with_alt_cookie (some e0) = true
    · cases rest with
      | nil =>
        have hr := tryPool_err_stop (handlerFetch tz extract (pyStrip (linkField.getD "")))
          c0 [] e0 hf0 (Or.inl rfl)
        exact ⟨e0,
          (endpoint_failure_out tz extract [c0] linkField [c0] e0 hlink hpool hr).trans rfl,
          simplify_mem (some e0), simplify_ne_empty (some e0)⟩
      | cons c1 rest' =>
        obtain ⟨e1, hf1⟩ := hferr c1
        have hr := tryPool_err_cont (handlerFetch tz extract (pyStrip (linkField.getD "")))
          c0 c1 rest' e0 hf0 hp
        rw [hf1] at hr
        exact ⟨e1,
          (endpoint_failure_out tz extract (c0 :: c1 :: rest') linkField [c0, c1] e1
            hlink hpool hr).trans rfl,
          simplify_mem (some e1), simplify_ne_empty (some e1)⟩
    · have hpf : should_retry_with_alt_cookie (some e0) = false := by
        cases h' : should_retry_with_alt_cookie (some e0) <;> simp_all
      have hr := tryPool_err_stop (handlerFetch tz extract (pyStrip (linkField.getD "")))
        c0 rest e0 hf0 (Or.inr hpf)
      exact ⟨e0,
        (endpoint_failure_out tz extract (c0 :: rest) linkField [c0] e0 hlink hpool hr).trans rfl,
        simplify_mem (some e0), simplify_ne_empty (some e0)⟩

/-- Witness for C5: with one credential and an extraction oracle that always
fails, the endpoint returns the translated failure envelope. -/
theorem C5_translated_failure_envelope_witness :
    ∃ e : String,
      instagram_metadata 0 (fun _ _ => .error "no video formats found") ["main"]
          (some (some "u")) =
        { plays := .str "", comments := .str "", likes := .str "",
          pub_date := .str "", pub_time := .str "", insta_id := .str "",
          error := .str (simplify_error_message (some e)), status_code := 200 } ∧
      simplify_error_message (some e) ∈
        ["No downloadable video found (might be an image, carousel, or removed).",
         "Post is private/restricted or the login session is not accepted.",
         "Unable to extract data for this URL.",
         "yt-dlp Instagram extractor is currently broken for this URL.",
         "Unknown error – see server logs."] ∧
      simplify_error_message (some e) ≠ "" :=
  C5_translated_failure_envelope 0 (fun _ _ => .error "no video formats found") ["main"]
    (some "u") (by decide) (by decide) (fun _ _ h => Except.noConfusion h)

/-- C6: the endpoint validates input before fetching: an unparseable body gets
status 400 with error "Invalid JSON body." and all metadata fields empty; a
missing or blank link gets status 400 with error "No link provided." and all
metadata fields empty; and a well-formed request arriving while the credential
pool is empty gets status 500 with the fixed no-valid-cookies message and all
metadata fields empty. -/
theorem C6_input_validation (tz : Int)
    (extract : String → String → Except String RawInfo) (pool : List String)
    (body : Option (Option String)) :
    (body = none →
      instagram_metadata tz extract pool body =
        { plays := .str "", comments := .str "", likes := .str "",
          pub_date := .str "", pub_time := .str "", insta_id := .str "",
          error := .str "Invalid JSON body.", status_code := 400 }) ∧
    (∀ lf, body = some lf → pyStrip (lf.getD "") = "" →
      instagram_metadata tz extract pool body =
        { plays := .str "", comments := .str "", likes := .str "",
          pub_date := .str "", pub_time := .str "", insta_id := .str "",
          error := .str "No link provided.", status_code := 400 }) ∧
    (∀ lf, body = some lf → pyStrip (lf.getD "") ≠ "" → pool = [] →
      instagram_metadata tz extract pool body =
        { plays := .str "", comments := .str "", likes := .str "",
          pub_date := .str "", pub_time := .str "", insta_id := .str "",
          error := .str "No valid Instagram cookie files found on server.",
          status_code := 500 }) := by
  refine ⟨?_, ?_, ?_⟩
  · intro h
    subst h
    rfl
  · intro lf h hb
    subst h
    simp only [instagram_metadata]
    rw [if_pos hb]
    rfl
  · intro lf h hnb hp
    subst h
    subst hp
    simp only [instagram_metadata]
    rw [if_neg hnb, if_pos trivial]
    rfl

/-- Witness for C6: the three validation responses at concrete requests — a
malformed body, a blank link, and an empty credential pool. -/
theorem C6_input_validation_witness :
    instagram_metadata 0 (fun _ _ => .error "x") ["main"] none =
      { plays := .str "", comments := .str "", likes := .str "",
        pub_date := .str "", pub_time := .str "", insta_id := .str "",
        error := .str "Invalid JSON body.", status_code := 400 } ∧
    instagram_metadata 0 (fun _ _ => .error "x") ["main"] (some (some "   ")) =
      { plays := .str "", comments := .str "", likes := .str "",
        pub_date := .str "", pub_time := .str "", insta_id := .str "",
        error := .str "No link provided.", status_code := 400 } ∧
    instagram_metadata 0 (fun _ _ => .error "x") [] (some (some "u")) =
      { plays := .str "", comments := .str "", likes := .str "",
        pub_date := .str "", pub_time := .str "", insta_id := .str "",
        error := .str "No valid Instagram cookie files found on server.",
        status_code := 500 } :=
  ⟨(C6_input_validation 0 (fun _ _ => .error "x") ["main"] none).1 rfl,
   (C6_input_validation 0 (fun _ _ => .error "x") ["main"]
      (some (some "   "))).2.1 (some "   ") rfl (by decide),
   (C6_input_validation 0 (fun _ _ => .error "x") [] (some (some "u"))).2.2
      (some "u") rfl (by decide) rfl⟩

/-- C7 (code bug): a blank secret removes the stale file and returns `False`,
and a `False` main slot is fatal at startup (the `RuntimeError`); but a present
non-blank secret does not write the file and return `True` as the claim and the
function's own docstring state — `Path` is never imported in app.py, so the
write line raises `NameError`.  Consequently startup can never succeed at all. -/
theorem C7_cookie_provisioning :
    write_cookie_from_secret (fun _ => some "   ") [COOKIE_FILE_MAIN]
        "INSTAGRAM_COOKIE_MAIN" COOKIE_FILE_MAIN = .ok ([], false) ∧
    startup (fun _ => none) [] =
      .error "RuntimeError: INSTAGRAM_COOKIE_MAIN is not set or empty in Streamlit secrets. Set it in the app's Secrets section." ∧
    write_cookie_from_secret (fun _ => some "sessionid=abc") []
        "INSTAGRAM_COOKIE_MAIN" COOKIE_FILE_MAIN =
      .error "NameError: name 'Path' is not defined" ∧
    (∀ secrets fs pool, startup secrets fs ≠ .ok pool) := by
  refine ⟨rfl, rfl, rfl, ?_⟩
  intro secrets fs pool h
  unfold startup at h
  rcases except_cases
      (write_cookie_from_secret secrets fs "INSTAGRAM_COOKIE_MAIN" COOKIE_FILE_MAIN) with
    ⟨⟨fs1, b⟩, hw⟩ | ⟨e, hw⟩
  · rw [hw] at h
    have hb := write_cookie_ok_false secrets fs "INSTAGRAM_COOKIE_MAIN" COOKIE_FILE_MAIN fs1 b hw
    subst hb
    dsimp only at h
    rcases except_cases
        (write_cookie_from_secret secrets fs1 "INSTAGRAM_COOKIE_ALT" COOKIE_FILE_ALT) with
      ⟨⟨fs2, b2⟩, hw2⟩ | ⟨e2, hw2⟩
    · rw [hw2] at h
      dsimp only at h
      rw [if_pos rfl] at h
      cases h
    · rw [hw2] at h
      cases h
  · rw [hw] at h
    cases h

/-- Witness for C7: startup with a non-blank main secret still does not
produce a usable credential pool. -/
theorem C7_cookie_provisioning_witness :
    startup (fun _ => some "sessionid=abc") [] ≠ .ok [COOKIE_FILE_MAIN] :=
  C7_cookie_provisioning.2.2.2 (fun _ => some "sessionid=abc") [] [COOKIE_FILE_MAIN]

/-- C8 counterexample: a raw record that does contain a publish timestamp —
the epoch value `0` — yields `pub_date` and `pub_time` both absent, against the
claim that a present timestamp always produces formatted date and time. -/
theorem C8_counterexample :
    (⟨some 0, none, none, none, none, none⟩ : RawInfo).timestamp = some 0 ∧
    get_instagram_metadata 0 (fun _ _ => .ok ⟨some 0, none, none, none, none, none⟩)
        "url" "cookie" = .ok (normalize_info 0 ⟨some 0, none, none, none, none, none⟩) ∧
    (normalize_info 0 (⟨some 0, none, none, none, none, none⟩ : RawInfo)).pub_date = none ∧
    (normalize_info 0 (⟨some 0, none, none, none, none, none⟩ : RawInfo)).pub_time = none :=
  ⟨rfl, rfl, rfl, rfl⟩

/-- C8 (amended): for every successful extraction whose raw record contains a
nonzero publish timestamp (epoch seconds), `get_instagram_metadata` returns
`pub_date` in `YYYY-MM-DD` format and `pub_time` in `HH:MM:SS` format, both
derived from that epoch value in the server's local time zone (modelled as the
fixed offset `tz`); an absent timestamp yields both fields absent. -/
theorem C8_publish_fields (tz : Int)
    (extract : String → String → Except String RawInfo) (url cookie_file : String)
    (info : RawInfo) (hx : extract url cookie_file = .ok info) :
    get_instagram_metadata tz extract url cookie_file = .ok (normalize_info tz info) ∧
    (info.timestamp = none →
      (normalize_info tz info).pub_date = none ∧
      (normalize_info tz info).pub_time = none) ∧
    (∀ ts : Int, info.timestamp = some ts → ts ≠ 0 →
      (normalize_info tz info).pub_date = some (strftimeYmd tz ts) ∧
      isYmdShape (strftimeYmd tz ts) = true ∧
      (normalize_info tz info).pub_time = some (strftimeHms tz ts) ∧
      isHmsShape (strftimeHms tz ts) = true) := by
  refine ⟨by simp [get_instagram_metadata, hx], ?_, ?_⟩
  · intro h
    exact ⟨by simp [normalize_info, h], by simp [normalize_info, h]⟩
  · intro ts h hne
    exact ⟨by simp [normalize_info, h, hne], strftimeYmd_shape tz ts,
      by simp [normalize_info, h, hne], strftimeHms_shape tz ts⟩

/-- Witness for the amended C8 at epoch 1700000000 and offset 0. -/
theorem C8_publish_fields_witness :
    (normalize_info 0 ⟨some 1700000000, none, none, none, none, none⟩).pub_date =
      some (strftimeYmd 0 1700000000) ∧
    isYmdShape (strftimeYmd 0 1700000000) = true ∧
    (normalize_info 0 ⟨some 1700000000, none, none, none, none, none⟩).pub_time =
      some (strftimeHms 0 1700000000) ∧
    isHmsShape (strftimeHms 0 1700000000) = true :=
  (C8_publish_fields 0 (fun _ _ => .ok ⟨some 1700000000, none, none, none, none, none⟩)
    "u" "c" ⟨some 1700000000, none, none, none, none, none⟩ rfl).2.2
    1700000000 rfl (by decide)

/-- C9: for every successful fetch, the response body carries each present
count as an integer (including 0) and each absent count as the empty string,
each string field as its value when present and the empty string when absent,
the error field as the empty string, and status 200; the counts of the
normalized record are exactly the upstream record's counts, so zero and absent
are never conflated. -/
theorem C9_success_round_trip (tz : Int)
    (extract : String → String → Except String RawInfo) (pool : List String)
    (linkField : Option String) (attempts : List String) (meta : Meta)
    (hlink : pyStrip (linkField.getD "") ≠ "") (hpool : pool ≠ [])
    (hs : tryPool (handlerFetch tz extract (pyStrip (linkField.getD ""))) pool =
      (attempts, .success meta)) :
    instagram_metadata tz extract pool (some linkField) =
      { plays := intOrEmpty meta.plays
        comments := intOrEmpty meta.comments
        likes := intOrEmpty meta.likes
        pub_date := .str (meta.pub_date.getD "")
        pub_time := .str (meta.pub_time.getD "")
        insta_id := .str (meta.insta_id.getD "")
        error := .str ""
        status_code := 200 } ∧
    (∀ n : Int, meta.plays = some n → intOrEmpty meta.plays = .int n) ∧
    (meta.plays = none → intOrEmpty meta.plays = .str "") ∧
    intOrEmpty (some 0) ≠ JVal.str "" ∧
    (∀ info : RawInfo,
      (normalize_info tz info).plays = info.view_count ∧
      (normalize_info tz info).comments = info.comment_count ∧
      (normalize_info tz info).likes = info.like_count ∧
      (normalize_info tz info).insta_id = pyOr info.uploader info.uploader_id) := by
  refine ⟨endpoint_success_out tz extract pool linkField attempts meta hlink hpool hs,
    ?_, ?_, by decide, ?_⟩
  · intro n h
    simp [intOrEmpty, h]
  · intro h
    simp [intOrEmpty, h]
  · intro info
    exact ⟨rfl, rfl, rfl, rfl⟩

/-- Witness for C9: a concrete successful fetch with all counts present. -/
theorem C9_success_round_trip_witness :
    instagram_metadata 0
        (fun _ _ => .ok ⟨some 1700000000, some 100, some 2, some 10, some "user", none⟩)
        ["main"] (some (some "u")) =
      { plays := .int 100, comments := .int 2, likes := .int 10,
        pub_date := .str "2023-11-14", pub_time := .str "22:13:20",
        insta_id := .str "user", error := .str "", status_code := 200 } :=
  (C9_success_round_trip 0
    (fun _ _ => .ok ⟨some 1700000000, some 100, some 2, some 10, some "user", none⟩)
    ["main"] (some "u") ["main"]
    (normalize_info 0 ⟨some 1700000000, some 100, some 2, some 10, some "user", none⟩)
    (by decide) (by decide) rfl).1

/-- C10: `get_instagram_metadata` tests the timestamp by Python truthiness, so
a raw record whose publish timestamp equals 0 yields `pub_date` and `pub_time`
both absent, exactly as if the timestamp were missing, while every nonzero
timestamp populates both fields. -/
theorem C10_zero_timestamp_truthiness (tz : Int)
    (extract : String → String → Except String RawInfo) (url cookie_file : String)
    (info : RawInfo) (hx : extract url cookie_file = .ok info) :
    get_instagram_metadata tz extract url cookie_file = .ok (normalize_info tz info) ∧
    (info.timestamp = some 0 →
      normalize_info tz info = normalize_info tz { info with timestamp := none } ∧
      (normalize_info tz info).pub_date = none ∧
      (normalize_info tz info).pub_time = none) ∧
    (∀ ts : Int, info.timestamp = some ts → ts ≠ 0 →
      (normalize_info tz info).pub_date.isSome = true ∧
      (normalize_info tz info).pub_time.isSome = true) := by
  refine ⟨by simp [get_instagram_metadata, hx], ?_, ?_⟩
  · intro h
    exact ⟨by simp [normalize_info, h], by simp [normalize_info, h],
      by simp [normalize_info, h]⟩
  · intro ts h hne
    exact ⟨by simp [normalize_info, h, hne], by simp [normalize_info, h, hne]⟩

/-- Witness for C10: with timestamp 0 the normalized record is identical to the
one built from the same raw record with the timestamp removed. -/
theorem C10_zero_timestamp_truthiness_witness :
    normalize_info 0 ⟨some 0, some 5, none, none, none, none⟩ =
      normalize_info 0 ⟨none, some 5, none, none, none, none⟩ :=
  ((C10_zero_timestamp_truthiness 0
    (fun _ _ => .ok ⟨some 0, some 5, none, none, none, none⟩) "u" "c"
    ⟨some 0, some 5, none, none, none, none⟩ rfl).2.1 rfl).1

end InstaScrape
